import Mathlib

/-!
Verification of the bounded retry dispatcher of `aldera.sms.backends.async_aws`
(class `AsyncSmsBackend`).

The transport (the aioboto3 SNS client) is modelled as a behaviour
`beh : Nat → AttemptResult` giving, for each attempt index, the outcome the
`client.publish(...)` call would produce on that attempt: a success carrying
the response dictionary (whose optional `MessageId` entry we keep) or one of
the exception classes the source catches.  `send_message` is embedded as a
pure function of this behaviour that returns the call outcome
(`Except SmsSendError (Option String)`, where an `error` models the final
`raise SmsSendError(...) from last_exception`) together with the observable
event trace: semaphore acquire/release, each transport call, and each
`asyncio.sleep` delay (delays as exact rationals; 0.5 and 2.0 are exactly
representable).
-/

namespace Aldera

/-- The errors a transport attempt can raise, as caught by the source's
`except` clauses.  `clientError code` models `botocore.exceptions.ClientError`
carrying the string extracted by
`getattr(err, "response", {}).get("Error", {}).get("Code", "")` (the chain
collapses a missing response or key to the empty string, so we carry the
resulting code string directly).  `endpointConnectionError` and
`timeoutError` model `botocore.exceptions.EndpointConnectionError` and
`asyncio.TimeoutError`.  `otherError` models any other exception, tagged for
distinguishability. -/
inductive TransportError where
  | clientError (code : String)
  | endpointConnectionError
  | timeoutError
  | otherError (tag : String)
deriving DecidableEq, Repr

/-- The response dictionary of a successful `client.publish`; the source only
reads `response.get("MessageId")`, which is `None` when the key is absent. -/
structure SnsResponse where
  messageId : Option String
deriving DecidableEq, Repr

/-- Outcome of one transport attempt. -/
inductive AttemptResult where
  | success (resp : SnsResponse)
  | failure (e : TransportError)
deriving DecidableEq, Repr

/-- Observable events of one `send_message` call: semaphore acquire and
release, the transport call of attempt `n`, and a backoff sleep of `d` time
units. -/
inductive Event where
  | acquire
  | release
  | publish (n : Nat)
  | sleep (d : ℚ)
deriving DecidableEq, Repr

/-- An event touching the semaphore (acquire or release). -/
def Event.isGate : Event → Bool
  | .acquire => true
  | .release => true
  | _ => false

/-- `SmsSendError`: the exception raised when an SMS cannot be sent; it
carries the recipient interpolated into its message and, via `raise ... from
last_exception`, the causing error (`none` models `last_exception = None`). -/
structure SmsSendError where
  recipient_number : String
  cause : Option TransportError
deriving DecidableEq, Repr

/-- The message string of the raised `SmsSendError`
(`f"Failed to send message to {recipient_number}"`). -/
def SmsSendError.message (e : SmsSendError) : String :=
  "Failed to send message to " ++ e.recipient_number

namespace AsyncSmsBackend

/-- `self._max_retries = 3` -/
def max_retries : Nat := 3

/-- `self._backoff_base = 0.5` -/
def backoff_base : ℚ := 1 / 2

/-- `self._backoff_factor = 2.0` -/
def backoff_factor : ℚ := 2

/-- `asyncio.Semaphore(2)`: the capacity of the admission gate. -/
def semaphore_capacity : Nat := 2

/-- `b` holds the characters of `needle` at the start of `hay`
(`needle` is a prefix of `hay`). -/
def leadsWith : List Char → List Char → Bool
  | [], _ => true
  | _ :: _, [] => false
  | a :: as, b :: bs => a == b && leadsWith as bs

/-- Python's substring test `needle in hay` on character lists. -/
def containsSub (hay needle : List Char) : Bool :=
  match hay with
  | [] => leadsWith needle []
  | _ :: rest => leadsWith needle hay || containsSub rest needle

/-- The fixed token tuple of the source:
`("throttling", "requestlimit", "internal", "service", "unavailable")`. -/
def retriableTokens : List String :=
  ["throttling", "requestlimit", "internal", "service", "unavailable"]

/-- `any(token in str(code).lower() for token in (...))`: the retriable test
applied to a `ClientError` code string. -/
def isRetriableCode (code : String) : Bool :=
  retriableTokens.any fun token =>
    containsSub (code.data.map Char.toLower) token.data

/-- The error classification the dispatch loop implements, branch by branch:
a `ClientError` is retriable-remote when its code matches a token and fatal
otherwise; connection and timeout errors are retriable-network; any other
exception is fatal. -/
inductive ErrorClass where
  | retriableRemote
  | retriableNetwork
  | fatal
deriving DecidableEq, Repr

/-- Classification of a transport error, read off the source's `except`
clauses and its `retriable` flag. -/
def classify : TransportError → ErrorClass
  | .clientError code =>
      if isRetriableCode code then .retriableRemote else .fatal
  | .endpointConnectionError => .retriableNetwork
  | .timeoutError => .retriableNetwork
  | .otherError _ => .fatal

/-- The body of the `while attempt <= self._max_retries` loop of
`send_message`.  `attempt` and `last_exception` are the loop variables of the
source.  Since `attempt` grows by exactly one per iteration, the loop
condition is rendered structurally by the countdown
`fuel = max_retries + 1 - attempt`, which is `0` exactly when
`attempt > max_retries`; the top-level call passes `fuel = max_retries + 1`
and `attempt = 0`, and the two move in lockstep.  The inner budget checks
keep the source's form in terms of `attempt`.  The result pairs the call
outcome (`error c` models reaching the final
`raise SmsSendError(...) from last_exception`, with `c` the cause) with the
list of publish and sleep events of the loop. -/
def sendLoop (beh : Nat → AttemptResult) :
    Nat → Nat → Option TransportError →
    Except (Option TransportError) (Option String) × List Event
  | 0, _attempt, last_exception => (.error last_exception, [])
  | fuel + 1, attempt, last_exception =>
    match beh attempt with
    | .success resp =>
        -- return response.get("MessageId")
        (.ok resp.messageId, [.publish attempt])
    | .failure e =>
        match e with
        | .clientError code =>
            let retriable := isRetriableCode code
            let attempt1 := attempt + 1
            if attempt1 > max_retries || !retriable then
              (.error (some e), [.publish attempt])
            else
              let rest := sendLoop beh fuel attempt1 (some e)
              (rest.1,
                .publish attempt ::
                  .sleep (backoff_base * backoff_factor ^ (attempt1 - 1)) ::
                    rest.2)
        | .endpointConnectionError | .timeoutError =>
            let attempt1 := attempt + 1
            if attempt1 > max_retries then
              (.error (some e), [.publish attempt])
            else
              let rest := sendLoop beh fuel attempt1 (some e)
              (rest.1,
                .publish attempt ::
                  .sleep (backoff_base * backoff_factor ^ (attempt1 - 1)) ::
                    rest.2)
        | .otherError _ =>
            -- Unknown error; do not retry
            (.error (some e), [.publish attempt])

/-- `AsyncSmsBackend.send_message(message, recipient_number)`, as a function
of the transport behaviour.  The semaphore is acquired before the loop and
released when the `async with` block exits, on every path; the final
`raise SmsSendError(...)`, which sits outside the `async with`, is modelled
by mapping the loop's `error` cause into an `SmsSendError` value carrying the
recipient.  `message` does not influence control flow (it only fills the
publish kwargs), but is kept as a parameter. -/
def send_message (beh : Nat → AttemptResult)
    (message recipient_number : String) :
    Except SmsSendError (Option String) × List Event :=
  let _ := message
  let r := sendLoop beh (max_retries + 1) 0 none
  (r.1.mapError fun c => ⟨recipient_number, c⟩,
    .acquire :: r.2 ++ [.release])

/-- `asyncio.run(coro)`: runs the coroutine to completion, returning its
value or propagating its exception; on our pure embedding of coroutine
results it is the identity. -/
def asyncio_run {α : Type} (x : α) : α := x

/-- `AsyncSmsBackend.send_message_sync(message, recipient_number)`:
`asyncio.run(self.send_message(message, recipient_number))`. -/
def send_message_sync (beh : Nat → AttemptResult)
    (message recipient_number : String) :
    Except SmsSendError (Option String) × List Event :=
  asyncio_run (send_message beh message recipient_number)

/-- Number of transport calls recorded in a trace. -/
def numCalls (evs : List Event) : Nat :=
  evs.countP fun ev => match ev with | .publish _ => true | _ => false

/-- The backoff delays of a trace, in order. -/
def sleepsOf (evs : List Event) : List ℚ :=
  evs.filterMap fun ev => match ev with | .sleep d => some d | _ => none

/-- Number of semaphore acquisitions in a trace. -/
def numAcquires (evs : List Event) : Nat :=
  evs.countP fun ev => match ev with | .acquire => true | _ => false

/-- Number of semaphore releases in a trace. -/
def numReleases (evs : List Event) : Nat :=
  evs.countP fun ev => match ev with | .release => true | _ => false

/-- Effect of a trace on the semaphore's available-slot count. -/
def applyGate (evs : List Event) (n : Nat) : Nat :=
  evs.foldl (fun m ev => match ev with
    | .acquire => m - 1
    | .release => m + 1
    | _ => m) n

/-- A transport behaviour that reports throttling on attempts 0, 1, 2 and
succeeds on attempt 3. -/
def behThrottleThenOk : Nat → AttemptResult := fun n =>
  if n < 3 then .failure (.clientError "Throttling")
  else .success ⟨some "mid-4"⟩

/-- A transport behaviour that reports throttling on every attempt. -/
def behAlwaysThrottle : Nat → AttemptResult := fun _ =>
  .failure (.clientError "Throttling")

/-- A transport behaviour that raises an unrecognized exception on every
attempt. -/
def behFatalNow : Nat → AttemptResult := fun _ =>
  .failure (.otherError "boom")

/-- A transport behaviour that succeeds at once with a response that has no
`MessageId` entry. -/
def behNoMessageId : Nat → AttemptResult := fun _ =>
  .success ⟨none⟩

/-- Phase of one logical dispatch call with respect to the shared admission
gate: suspended waiting for a slot, holding a slot (performing its
transport attempts inside `async with self._semaphore`), or completed with
the slot given back. -/
inductive TaskPhase where
  | pending
  | running
  | done
deriving DecidableEq, Repr

/-- State of the shared semaphore and the concurrent dispatch calls: the
available-slot count paired with each call's phase. -/
abbrev GateState := Nat × List TaskPhase

/-- Interleaving semantics of the `asyncio.Semaphore` protocol used by
`send_message`: `acquire` admits a pending call when a slot is available
(entry into `async with self._semaphore`; with no free slot the call stays
suspended, so no step applies to it), and `release` completes a running
call and returns its slot (exit of the `async with` block, on every exit
path). -/
inductive gateStep : GateState → GateState → Prop
  | acquire (a : Nat) (ts : List TaskPhase) (i : Nat)
      (hp : ts[i]? = some .pending) :
      gateStep (a + 1, ts) (a, ts.set i .running)
  | release (a : Nat) (ts : List TaskPhase) (i : Nat)
      (hr : ts[i]? = some .running) :
      gateStep (a, ts) (a + 1, ts.set i .done)

/-- Number of calls currently holding a slot, i.e. with transport calls in
flight. -/
def countRunning (ts : List TaskPhase) : Nat :=
  ts.countP fun t => match t with | .running => true | _ => false

/-- Initial state: all slots free, `n` dispatch calls issued and waiting. -/
def gateInit (cap n : Nat) : GateState := (cap, List.replicate n .pending)

/-- States reachable by interleaving the calls' acquires and releases. -/
def gateReachable (cap n : Nat) (s : GateState) : Prop :=
  Relation.ReflTransGen gateStep (gateInit cap n) s

/-- A successful publish on the attempt being executed returns the
response's `MessageId` at once, recording only that one transport call. -/
theorem sendLoop_success (beh : Nat → AttemptResult) (fuel attempt : Nat)
    (last : Option TransportError) (resp : SnsResponse)
    (hb : beh attempt = .success resp) :
    sendLoop beh (fuel + 1) attempt last =
      (.ok resp.messageId, [.publish attempt]) := by
  simp [sendLoop, hb]

/-- A fatal-classified failure stops the loop at once: one transport call,
no sleep, error wrapping that failure. -/
theorem sendLoop_fatal (beh : Nat → AttemptResult) (fuel attempt : Nat)
    (last : Option TransportError) (e : TransportError)
    (hb : beh attempt = .failure e) (hc : classify e = .fatal) :
    sendLoop beh (fuel + 1) attempt last =
      (.error (some e), [.publish attempt]) := by
  cases e with
  | clientError code =>
      have hr : isRetriableCode code = false := by
        by_contra h
        simp [classify, eq_true_of_ne_false h] at hc
      simp [sendLoop, hb, hr]
  | endpointConnectionError => simp [classify] at hc
  | timeoutError => simp [classify] at hc
  | otherError tag => simp [sendLoop, hb]

/-- Any failure on an attempt that has already consumed the retry budget
stops the loop: one transport call, no sleep, error wrapping it. -/
theorem sendLoop_exhaust (beh : Nat → AttemptResult) (fuel attempt : Nat)
    (last : Option TransportError) (e : TransportError)
    (hb : beh attempt = .failure e) (ha : max_retries < attempt + 1) :
    sendLoop beh (fuel + 1) attempt last =
      (.error (some e), [.publish attempt]) := by
  cases e <;> simp [sendLoop, hb, ha]

/-- A retriable-classified failure within the budget sleeps for
`backoff_base * backoff_factor ^ attempt` and continues with the next
attempt. -/
theorem sendLoop_retry (beh : Nat → AttemptResult) (fuel attempt : Nat)
    (last : Option TransportError) (e : TransportError)
    (hb : beh attempt = .failure e) (hc : classify e ≠ .fatal)
    (ha : attempt + 1 ≤ max_retries) :
    sendLoop beh (fuel + 1) attempt last =
      ((sendLoop beh fuel (attempt + 1) (some e)).1,
        .publish attempt ::
          .sleep (backoff_base * backoff_factor ^ attempt) ::
            (sendLoop beh fuel (attempt + 1) (some e)).2) := by
  have ha' : ¬ max_retries < attempt + 1 := by omega
  cases e with
  | clientError code =>
      have hr : isRetriableCode code = true := by
        by_contra h
        simp [classify, eq_false_of_ne_true h] at hc
      simp [sendLoop, hb, hr, ha']
  | endpointConnectionError => simp [sendLoop, hb, ha']
  | timeoutError => simp [sendLoop, hb, ha']
  | otherError tag => simp [classify] at hc

/-- C1: for every request where the transport publish raises a
retriable-remote-classified error on attempts 1, 2 and 3 and succeeds on
attempt 4, `send_message` returns success after exactly 4 transport calls,
with backoff delays of exactly 0.5, 1 and 2 time units between consecutive
attempts, in that order, computed as
`backoff_base * backoff_factor ^ (attempt - 1)` with base 0.5 and
factor 2.0. -/
theorem send_message_retriable_then_success
    (beh : Nat → AttemptResult) (message recipient : String)
    (e0 e1 e2 : TransportError) (resp : SnsResponse)
    (hb0 : beh 0 = .failure e0) (hc0 : classify e0 = .retriableRemote)
    (hb1 : beh 1 = .failure e1) (hc1 : classify e1 = .retriableRemote)
    (hb2 : beh 2 = .failure e2) (hc2 : classify e2 = .retriableRemote)
    (hb3 : beh 3 = .success resp) :
    (send_message beh message recipient).1 = .ok resp.messageId ∧
      numCalls (send_message beh message recipient).2 = 4 ∧
      sleepsOf (send_message beh message recipient).2 =
        [backoff_base * backoff_factor ^ 0,
          backoff_base * backoff_factor ^ 1,
          backoff_base * backoff_factor ^ 2] ∧
      sleepsOf (send_message beh message recipient).2 = [1/2, 1, 2] := by
  have h0 : classify e0 ≠ .fatal := by rw [hc0]; intro h; cases h
  have h1 : classify e1 ≠ .fatal := by rw [hc1]; intro h; cases h
  have h2 : classify e2 ≠ .fatal := by rw [hc2]; intro h; cases h
  have key : sendLoop beh (max_retries + 1) 0 none =
      ((sendLoop beh 1 3 (some e2)).1,
        .publish 0 :: .sleep (backoff_base * backoff_factor ^ 0) ::
          .publish 1 :: .sleep (backoff_base * backoff_factor ^ 1) ::
            .publish 2 :: .sleep (backoff_base * backoff_factor ^ 2) ::
              (sendLoop beh 1 3 (some e2)).2) := by
    rw [show max_retries + 1 = 3 + 1 from rfl,
      sendLoop_retry beh 3 0 none e0 hb0 h0 (by decide),
      sendLoop_retry beh 2 1 (some e0) e1 hb1 h1 (by decide),
      sendLoop_retry beh 1 2 (some e1) e2 hb2 h2 (by decide)]
  have hlast : sendLoop beh 1 3 (some e2) =
      (.ok resp.messageId, [.publish 3]) := by
    have := sendLoop_success beh 0 3 (some e2) resp hb3
    simpa using this
  rw [hlast] at key
  refine ⟨?_, ?_, ?_, ?_⟩ <;>
    simp [send_message, key, numCalls, sleepsOf, Except.mapError] <;>
    norm_num [backoff_base, backoff_factor]

/-- Witness for C1 at a concrete behaviour: three throttling failures, then
success with identifier `mid-4`. -/
theorem send_message_retriable_then_success_witness :
    (send_message behThrottleThenOk "hello" "+15550000001").1 =
        .ok (some "mid-4") ∧
      numCalls (send_message behThrottleThenOk "hello" "+15550000001").2 = 4 ∧
      sleepsOf (send_message behThrottleThenOk "hello" "+15550000001").2 =
        [backoff_base * backoff_factor ^ 0,
          backoff_base * backoff_factor ^ 1,
          backoff_base * backoff_factor ^ 2] ∧
      sleepsOf (send_message behThrottleThenOk "hello" "+15550000001").2 =
        [1/2, 1, 2] :=
  send_message_retriable_then_success behThrottleThenOk "hello" "+15550000001"
    (.clientError "Throttling") (.clientError "Throttling")
    (.clientError "Throttling") ⟨some "mid-4"⟩
    rfl (by decide) rfl (by decide) rfl (by decide) rfl

/-- C3: for every request where the transport raises a retriable-classified
error on every attempt, dispatch makes exactly 4 transport attempts
(max_retries = 3 plus the initial attempt), then terminates with the
retries-exhausted failure wrapping the last observed underlying error,
making no further transport attempts and incurring no backoff delay after
the final failed attempt (the trace is exactly acquire, publish 0,
sleep 0.5, publish 1, sleep 1, publish 2, sleep 2, publish 3, release). -/
theorem send_message_retries_exhausted
    (beh : Nat → AttemptResult) (message recipient : String)
    (e0 e1 e2 e3 : TransportError)
    (hb0 : beh 0 = .failure e0) (hc0 : classify e0 ≠ .fatal)
    (hb1 : beh 1 = .failure e1) (hc1 : classify e1 ≠ .fatal)
    (hb2 : beh 2 = .failure e2) (hc2 : classify e2 ≠ .fatal)
    (hb3 : beh 3 = .failure e3) :
    (send_message beh message recipient).1 =
        .error ⟨recipient, some e3⟩ ∧
      numCalls (send_message beh message recipient).2 = 4 ∧
      (send_message beh message recipient).2 =
        [.acquire, .publish 0, .sleep (1/2), .publish 1, .sleep 1,
          .publish 2, .sleep 2, .publish 3, .release] := by
  have key : sendLoop beh (max_retries + 1) 0 none =
      ((sendLoop beh 1 3 (some e2)).1,
        .publish 0 :: .sleep (backoff_base * backoff_factor ^ 0) ::
          .publish 1 :: .sleep (backoff_base * backoff_factor ^ 1) ::
            .publish 2 :: .sleep (backoff_base * backoff_factor ^ 2) ::
              (sendLoop beh 1 3 (some e2)).2) := by
    rw [show max_retries + 1 = 3 + 1 from rfl,
      sendLoop_retry beh 3 0 none e0 hb0 hc0 (by decide),
      sendLoop_retry beh 2 1 (some e0) e1 hb1 hc1 (by decide),
      sendLoop_retry beh 1 2 (some e1) e2 hb2 hc2 (by decide)]
  have hlast : sendLoop beh 1 3 (some e2) =
      (.error (some e3), [.publish 3]) := by
    have := sendLoop_exhaust beh 0 3 (some e2) e3 hb3 (by decide)
    simpa using this
  rw [hlast] at key
  refine ⟨?_, ?_, ?_⟩ <;>
    simp [send_message, key, numCalls, Except.mapError] <;>
    norm_num [backoff_base, backoff_factor]

/-- Witness for C3 at a concrete behaviour: throttling on every attempt. -/
theorem send_message_retries_exhausted_witness :
    (send_message behAlwaysThrottle "hello" "+15550000001").1 =
        .error ⟨"+15550000001", some (.clientError "Throttling")⟩ ∧
      numCalls (send_message behAlwaysThrottle "hello" "+15550000001").2 = 4 ∧
      (send_message behAlwaysThrottle "hello" "+15550000001").2 =
        [.acquire, .publish 0, .sleep (1/2), .publish 1, .sleep 1,
          .publish 2, .sleep 2, .publish 3, .release] :=
  send_message_retries_exhausted behAlwaysThrottle "hello" "+15550000001"
    (.clientError "Throttling") (.clientError "Throttling")
    (.clientError "Throttling") (.clientError "Throttling")
    rfl (by decide) rfl (by decide) rfl (by decide) rfl

/-- C4: for every request where the first transport attempt raises an error
classified as fatal, dispatch terminates with a failure carrying that error
after exactly one transport call and no backoff delay; moreover (last
conjunct) a fatal-classified error on ANY attempt ends the loop with that
attempt's single publish event, so a fatal error is never retried. -/
theorem send_message_fatal_stops
    (beh : Nat → AttemptResult) (message recipient : String)
    (e : TransportError)
    (hb : beh 0 = .failure e) (hc : classify e = .fatal) :
    (send_message beh message recipient).1 = .error ⟨recipient, some e⟩ ∧
      numCalls (send_message beh message recipient).2 = 1 ∧
      sleepsOf (send_message beh message recipient).2 = [] ∧
      (∀ (beh2 : Nat → AttemptResult) (fuel attempt : Nat)
        (last : Option TransportError) (e2 : TransportError),
        beh2 attempt = .failure e2 → classify e2 = .fatal →
        (sendLoop beh2 (fuel + 1) attempt last).2 = [.publish attempt]) := by
  have key : sendLoop beh (max_retries + 1) 0 none =
      (.error (some e), [.publish 0]) := by
    rw [show max_retries + 1 = 3 + 1 from rfl]
    exact sendLoop_fatal beh 3 0 none e hb hc
  refine ⟨?_, ?_, ?_, ?_⟩
  · simp [send_message, key, Except.mapError]
  · simp [send_message, key, numCalls]
  · simp [send_message, key, sleepsOf]
  · intro beh2 fuel attempt last e2 hb2 hc2
    rw [sendLoop_fatal beh2 fuel attempt last e2 hb2 hc2]

/-- Witness for C4 at a concrete behaviour: an unrecognized exception on the
first attempt. -/
theorem send_message_fatal_stops_witness :
    (send_message behFatalNow "hello" "+15550000001").1 =
        .error ⟨"+15550000001", some (.otherError "boom")⟩ ∧
      numCalls (send_message behFatalNow "hello" "+15550000001").2 = 1 ∧
      sleepsOf (send_message behFatalNow "hello" "+15550000001").2 = [] ∧
      (∀ (beh2 : Nat → AttemptResult) (fuel attempt : Nat)
        (last : Option TransportError) (e2 : TransportError),
        beh2 attempt = .failure e2 → classify e2 = .fatal →
        (sendLoop beh2 (fuel + 1) attempt last).2 = [.publish attempt]) :=
  send_message_fatal_stops behFatalNow "hello" "+15550000001"
    (.otherError "boom") rfl (by decide)

/-- Counterexample to C8 as stated: when the transport succeeds with a
response that has no `MessageId` entry, dispatch returns with an ABSENT
identifier (`none`), because the source returns `response.get("MessageId")`;
so the returned identifier is not always a present string. -/
theorem send_message_success_absent_id_counterexample :
    (send_message behNoMessageId "hello" "+15550000001").1 = .ok none ∧
      numCalls (send_message behNoMessageId "hello" "+15550000001").2 = 1 := by
  constructor <;> rfl

/-- C8 (amended): whenever a transport attempt succeeds, dispatch returns
immediately with a success outcome carrying the optional `MessageId` field
of the response of that attempt — absent when the response has no
`MessageId` — and makes no further transport attempts.  The first conjunct
covers a success on the first attempt at the `send_message` level; the last
conjunct covers a success on the attempt being executed at any point of the
loop. -/
theorem send_message_success_immediate
    (beh : Nat → AttemptResult) (message recipient : String)
    (resp : SnsResponse) (hb : beh 0 = .success resp) :
    (send_message beh message recipient).1 = .ok resp.messageId ∧
      numCalls (send_message beh message recipient).2 = 1 ∧
      sleepsOf (send_message beh message recipient).2 = [] ∧
      (∀ (beh2 : Nat → AttemptResult) (fuel attempt : Nat)
        (last : Option TransportError) (resp2 : SnsResponse),
        beh2 attempt = .success resp2 →
        sendLoop beh2 (fuel + 1) attempt last =
          (.ok resp2.messageId, [.publish attempt])) := by
  have key : sendLoop beh (max_retries + 1) 0 none =
      (.ok resp.messageId, [.publish 0]) := by
    rw [show max_retries + 1 = 3 + 1 from rfl]
    exact sendLoop_success beh 3 0 none resp hb
  refine ⟨?_, ?_, ?_, ?_⟩
  · simp [send_message, key, Except.mapError]
  · simp [send_message, key, numCalls]
  · simp [send_message, key, sleepsOf]
  · intro beh2 fuel attempt last resp2 hb2
    exact sendLoop_success beh2 fuel attempt last resp2 hb2

/-- Witness for the amended C8: a first-attempt success with identifier
`mid-1`. -/
theorem send_message_success_immediate_witness :
    (send_message (fun _ => .success ⟨some "mid-1"⟩) "hello"
        "+15550000001").1 = .ok (some "mid-1") ∧
      numCalls ((send_message (fun _ => .success ⟨some "mid-1"⟩) "hello"
        "+15550000001")).2 = 1 ∧
      sleepsOf ((send_message (fun _ => .success ⟨some "mid-1"⟩) "hello"
        "+15550000001")).2 = [] ∧
      (∀ (beh2 : Nat → AttemptResult) (fuel attempt : Nat)
        (last : Option TransportError) (resp2 : SnsResponse),
        beh2 attempt = .success resp2 →
        sendLoop beh2 (fuel + 1) attempt last =
          (.ok resp2.messageId, [.publish attempt])) :=
  send_message_success_immediate (fun _ => .success ⟨some "mid-1"⟩)
    "hello" "+15550000001" ⟨some "mid-1"⟩ rfl

/-- C10: the synchronous wrapper `send_message_sync` produces exactly the
same outcome and trace as awaiting `send_message` on the same arguments and
the same transport behaviour (`asyncio.run` runs the coroutine to
completion, returning its value or propagating its exception). -/
theorem send_message_sync_eq_send_message
    (beh : Nat → AttemptResult) (message recipient_number : String) :
    send_message_sync beh message recipient_number =
      send_message beh message recipient_number := rfl

/-- `leadsWith` decides list prefixing. -/
theorem leadsWith_iff (needle hay : List Char) :
    leadsWith needle hay = true ↔ needle <+: hay := by
  induction needle generalizing hay with
  | nil => simp [leadsWith, List.nil_prefix]
  | cons a as ih =>
    cases hay with
    | nil => simp [leadsWith, List.prefix_nil]
    | cons b bs => simp [leadsWith, List.cons_prefix_cons, ih, And.comm]

/-- `containsSub` decides Python's substring relation, i.e. the needle is an
infix of the haystack. -/
theorem containsSub_iff (hay needle : List Char) :
    containsSub hay needle = true ↔ needle <:+: hay := by
  induction hay with
  | nil => simp [containsSub, leadsWith_iff, List.prefix_nil, List.infix_nil]
  | cons a rest ih =>
    simp [containsSub, leadsWith_iff, ih, List.infix_cons_iff]

/-- The retriable test on a `ClientError` code holds exactly when one of the
five fixed tokens occurs inside the lowercased code string. -/
theorem isRetriableCode_iff (code : String) :
    isRetriableCode code = true ↔
      ∃ t ∈ retriableTokens, t.data <:+: code.data.map Char.toLower := by
  simp [isRetriableCode, List.any_eq_true, containsSub_iff]

/-- C2: an error is classified retriable-remote iff it is a `ClientError`
whose code string, lowercased, contains one of the five fixed tokens;
retriable-network iff it is a connection-establishment failure or an
operation timeout; fatal otherwise; and a fatal-classified failure never
leads to another transport attempt (the loop ends with that attempt's
single publish event). -/
theorem classify_characterization :
    (∀ e : TransportError, classify e = .retriableRemote ↔
      ∃ code, e = .clientError code ∧
        ∃ t ∈ retriableTokens, t.data <:+: code.data.map Char.toLower) ∧
    (∀ e : TransportError, classify e = .retriableNetwork ↔
      (e = .endpointConnectionError ∨ e = .timeoutError)) ∧
    (∀ e : TransportError, classify e = .fatal ↔
      (classify e ≠ .retriableRemote ∧ classify e ≠ .retriableNetwork)) ∧
    (∀ (beh : Nat → AttemptResult) (fuel attempt : Nat)
      (last : Option TransportError) (e : TransportError),
      beh attempt = .failure e → classify e = .fatal →
      (sendLoop beh (fuel + 1) attempt last).2 = [.publish attempt]) := by
  refine ⟨?_, ?_, ?_, ?_⟩
  · intro e
    cases e with
    | clientError code =>
      by_cases h : isRetriableCode code
      · constructor
        · intro _
          exact ⟨code, rfl, (isRetriableCode_iff code).mp h⟩
        · intro _
          simp [classify, h]
      · constructor
        · intro hcl
          simp [classify, h] at hcl
        · rintro ⟨code', hEq, ht⟩
          cases hEq
          exact absurd ((isRetriableCode_iff code).mpr ht) h
    | endpointConnectionError => simp [classify]
    | timeoutError => simp [classify]
    | otherError tag => simp [classify]
  · intro e
    cases e with
    | clientError code =>
      by_cases h : isRetriableCode code <;> simp [classify, h]
    | endpointConnectionError => simp [classify]
    | timeoutError => simp [classify]
    | otherError tag => simp [classify]
  · intro e
    cases e with
    | clientError code =>
      by_cases h : isRetriableCode code <;> simp [classify, h]
    | endpointConnectionError => simp [classify]
    | timeoutError => simp [classify]
    | otherError tag => simp [classify]
  · intro beh fuel attempt last e hb hc
    rw [sendLoop_fatal beh fuel attempt last e hb hc]

/-- Witness for C2 at concrete errors: a throttling code is
retriable-remote, a timeout is retriable-network, an access-denied code is
fatal, and a fatal failure produces a single-publish loop trace. -/
theorem classify_characterization_witness :
    classify (.clientError "ThrottlingException") = .retriableRemote ∧
      classify .timeoutError = .retriableNetwork ∧
      classify (.clientError "AccessDenied") = .fatal ∧
      (sendLoop behFatalNow 1 0 none).2 = [.publish 0] := by
  obtain ⟨h1, h2, h3, h4⟩ := classify_characterization
  refine ⟨?_, ?_, ?_, ?_⟩
  · exact (h1 _).mpr
      ⟨"ThrottlingException", rfl, "throttling", by decide, by decide⟩
  · exact (h2 _).mpr (Or.inr rfl)
  · exact (h3 _).mpr ⟨by decide, by decide⟩
  · exact h4 behFatalNow 0 0 none (.otherError "boom") rfl (by decide)

/-- When the loop ends in an error and its countdown is in lockstep with the
attempt counter, the wrapped cause is the failure of the final transport
attempt, and that attempt's publish event closes the trace. -/
theorem sendLoop_error_last (beh : Nat → AttemptResult) :
    ∀ (fuel attempt : Nat) (last err : Option TransportError),
      attempt + fuel = max_retries + 1 →
      (sendLoop beh fuel attempt last).1 = .error err →
      fuel = 0 ∨ ∃ k c, err = some c ∧ beh k = .failure c ∧
        (sendLoop beh fuel attempt last).2.getLast? =
          some (.publish k) := by
  intro fuel
  induction fuel with
  | zero => intro attempt last err _ _; exact Or.inl rfl
  | succ fuel ih =>
    intro attempt last err hlink herr
    refine Or.inr ?_
    cases hb : beh attempt with
    | success resp =>
      rw [sendLoop_success beh fuel attempt last resp hb] at herr
      simp at herr
    | failure e =>
      by_cases hc : classify e = .fatal
      · rw [sendLoop_fatal beh fuel attempt last e hb hc] at herr ⊢
        simp at herr ⊢
        exact ⟨attempt, e, herr.symm, hb, rfl⟩
      · by_cases ha : attempt + 1 ≤ max_retries
        · rw [sendLoop_retry beh fuel attempt last e hb hc ha] at herr ⊢
          simp only at herr
          have hlink' : (attempt + 1) + fuel = max_retries + 1 := by omega
          rcases ih (attempt + 1) (some e) err hlink' herr with h0 | hk
          · exfalso
            rw [max_retries] at hlink ha
            omega
          · obtain ⟨k, c, he, hbk, hlast⟩ := hk
            refine ⟨k, c, he, hbk, ?_⟩
            rcases hin : (sendLoop beh fuel (attempt + 1) (some e)).2 with
              _ | ⟨ev, evs⟩
            · rw [hin] at hlast
              simp at hlast
            · rw [hin] at hlast
              simp only [List.getLast?_cons_cons]
              rw [← hlast]
        · have ha' : max_retries < attempt + 1 := by omega
          rw [sendLoop_exhaust beh fuel attempt last e hb ha'] at herr ⊢
          simp at herr ⊢
          exact ⟨attempt, e, herr.symm, hb, rfl⟩

/-- Counterexample to C5 as stated: the failure result does not name the
terminal error kind.  A fatal termination (one attempt) and a
retries-exhausted termination (four attempts) raise errors that agree on
every component other than the wrapped cause — same exception type, same
recipient, same message string — so nothing in the result, apart from
re-classifying the cause, distinguishes Fatal from RetriesExhausted. -/
theorem send_message_kind_not_named_counterexample :
    ∃ ef ee : SmsSendError,
      (send_message behFatalNow "hello" "+15550000001").1 = .error ef ∧
      (send_message behAlwaysThrottle "hello" "+15550000001").1 =
        .error ee ∧
      ef.message = ee.message ∧
      ef.recipient_number = ee.recipient_number ∧
      numCalls (send_message behFatalNow "hello" "+15550000001").2 = 1 ∧
      numCalls (send_message behAlwaysThrottle "hello"
        "+15550000001").2 = 4 :=
  ⟨⟨"+15550000001", some (.otherError "boom")⟩,
    ⟨"+15550000001", some (.clientError "Throttling")⟩,
    rfl, rfl, rfl, rfl, rfl, rfl⟩

/-- C5 (amended): every failing dispatch call terminates by raising the one
exception type `SmsSendError`, whose message carries the recipient and
which wraps the underlying error of the final transport attempt for
diagnostics — no failure is swallowed silently; the raised error itself
does not distinguish Fatal from RetriesExhausted. -/
theorem send_message_failure_wraps_last_cause
    (beh : Nat → AttemptResult) (message recipient : String)
    (err : SmsSendError)
    (h : (send_message beh message recipient).1 = .error err) :
    err.recipient_number = recipient ∧
      err.message = "Failed to send message to " ++ recipient ∧
      ∃ k c, err.cause = some c ∧ beh k = .failure c ∧
        (sendLoop beh (max_retries + 1) 0 none).2.getLast? =
          some (.publish k) := by
  have hr : ∃ e0, (sendLoop beh (max_retries + 1) 0 none).1 = .error e0 ∧
      err = ⟨recipient, e0⟩ := by
    cases hres : (sendLoop beh (max_retries + 1) 0 none).1 with
    | ok v => simp [send_message, hres, Except.mapError] at h
    | error e0 =>
        simp [send_message, hres, Except.mapError] at h
        exact ⟨e0, rfl, h.symm⟩
  obtain ⟨e0, hres, herr⟩ := hr
  rcases sendLoop_error_last beh (max_retries + 1) 0 none e0 rfl hres with
    h0 | ⟨k, c, he, hbk, hlast⟩
  · exact absurd h0 (by simp [max_retries])
  · subst herr
    exact ⟨rfl, rfl, k, c, by rw [he], hbk, hlast⟩

/-- Witness for the amended C5: throttling on every attempt; the raised
error wraps the last throttling failure and its message names the
recipient. -/
theorem send_message_failure_wraps_last_cause_witness :
    (⟨"+15550000001",
        some (.clientError "Throttling")⟩ : SmsSendError).recipient_number =
      "+15550000001" ∧
    (⟨"+15550000001",
        some (.clientError "Throttling")⟩ : SmsSendError).message =
      "Failed to send message to " ++ "+15550000001" ∧
    ∃ k c,
      (⟨"+15550000001",
          some (.clientError "Throttling")⟩ : SmsSendError).cause = some c ∧
      behAlwaysThrottle k = .failure c ∧
      (sendLoop behAlwaysThrottle (max_retries + 1) 0 none).2.getLast? =
        some (.publish k) :=
  send_message_failure_wraps_last_cause behAlwaysThrottle "hello"
    "+15550000001" ⟨"+15550000001", some (.clientError "Throttling")⟩ rfl

/-- The retry loop itself never touches the semaphore: its trace holds only
publish and sleep events. -/
theorem sendLoop_gate_free (beh : Nat → AttemptResult) :
    ∀ (fuel attempt : Nat) (last : Option TransportError),
      ((sendLoop beh fuel attempt last).2.all fun ev => !ev.isGate) = true := by
  intro fuel
  induction fuel with
  | zero => intro attempt last; simp [sendLoop]
  | succ fuel ih =>
    intro attempt last
    cases hb : beh attempt with
    | success resp =>
      rw [sendLoop_success beh fuel attempt last resp hb]
      simp [Event.isGate]
    | failure e =>
      by_cases hc : classify e = .fatal
      · rw [sendLoop_fatal beh fuel attempt last e hb hc]
        simp [Event.isGate]
      · by_cases ha : attempt + 1 ≤ max_retries
        · rw [sendLoop_retry beh fuel attempt last e hb hc ha]
          simp only [List.all_cons, Bool.and_eq_true]
          exact ⟨rfl, rfl, ih (attempt + 1) (some e)⟩
        · have ha' : max_retries < attempt + 1 := by omega
          rw [sendLoop_exhaust beh fuel attempt last e hb ha']
          simp [Event.isGate]

/-- A gate-free trace leaves the available-slot count unchanged. -/
theorem applyGate_gate_free (evs : List Event) :
    ∀ n : Nat, (evs.all fun ev => !ev.isGate) = true →
      applyGate evs n = n := by
  induction evs with
  | nil => intro n _; rfl
  | cons ev rest ih =>
    intro n h
    rw [List.all_cons, Bool.and_eq_true] at h
    cases ev with
    | acquire => simp [Event.isGate] at h
    | release => simp [Event.isGate] at h
    | publish m => simpa [applyGate, List.foldl_cons] using ih n h.2
    | sleep d => simpa [applyGate, List.foldl_cons] using ih n h.2

/-- C6: every dispatch call acquires exactly one admission-gate slot, does
so before its first transport attempt (the trace opens with the acquire),
and releases it exactly once, as the final event on every exit path; hence
the gate's available-slot count after the call equals its value before. -/
theorem send_message_gate_balanced
    (beh : Nat → AttemptResult) (message recipient : String) (n : Nat)
    (hn : 0 < n) :
    numAcquires (send_message beh message recipient).2 = 1 ∧
      numReleases (send_message beh message recipient).2 = 1 ∧
      (send_message beh message recipient).2.head? = some .acquire ∧
      (send_message beh message recipient).2.getLast? = some .release ∧
      applyGate (send_message beh message recipient).2 n = n := by
  have hfree := sendLoop_gate_free beh (max_retries + 1) 0 none
  rw [List.all_eq_true] at hfree
  have hacq : numAcquires (sendLoop beh (max_retries + 1) 0 none).2 = 0 := by
    rw [numAcquires, List.countP_eq_zero]
    intro ev hev
    have := hfree ev hev
    cases ev <;> simp_all [Event.isGate]
  have hrel : numReleases (sendLoop beh (max_retries + 1) 0 none).2 = 0 := by
    rw [numReleases, List.countP_eq_zero]
    intro ev hev
    have := hfree ev hev
    cases ev <;> simp_all [Event.isGate]
  refine ⟨?_, ?_, ?_, ?_, ?_⟩
  · simp only [send_message, numAcquires, List.countP_cons, List.countP_append]
    simp only [numAcquires] at hacq
    simp [hacq]
  · simp only [send_message, numReleases, List.countP_cons, List.countP_append]
    simp only [numReleases] at hrel
    simp [hrel]
  · simp [send_message]
  · exact List.getLast?_concat
      (Event.acquire :: (sendLoop beh (max_retries + 1) 0 none).2)
  · have hmid : applyGate (sendLoop beh (max_retries + 1) 0 none).2
        (n - 1) = n - 1 :=
      applyGate_gate_free _ (n - 1)
        (sendLoop_gate_free beh (max_retries + 1) 0 none)
    show applyGate ((Event.acquire ::
      (sendLoop beh (max_retries + 1) 0 none).2) ++ [Event.release]) n = n
    have step : applyGate ((Event.acquire ::
        (sendLoop beh (max_retries + 1) 0 none).2) ++ [Event.release]) n =
        applyGate ((sendLoop beh (max_retries + 1) 0 none).2 ++
          [Event.release]) (n - 1) := rfl
    rw [step]
    simp only [applyGate, List.foldl_append] at hmid ⊢
    rw [hmid]
    show n - 1 + 1 = n
    omega

/-- Witness for C6 at a concrete behaviour and an initially available
slot count of 2. -/
theorem send_message_gate_balanced_witness :
    numAcquires (send_message behThrottleThenOk "hello"
        "+15550000001").2 = 1 ∧
      numReleases (send_message behThrottleThenOk "hello"
        "+15550000001").2 = 1 ∧
      (send_message behThrottleThenOk "hello"
        "+15550000001").2.head? = some .acquire ∧
      (send_message behThrottleThenOk "hello"
        "+15550000001").2.getLast? = some .release ∧
      applyGate (send_message behThrottleThenOk "hello"
        "+15550000001").2 2 = 2 :=
  send_message_gate_balanced behThrottleThenOk "hello" "+15550000001" 2
    (by decide)

/-- The loop performs at most `fuel` transport calls. -/
theorem sendLoop_calls_le (beh : Nat → AttemptResult) :
    ∀ (fuel attempt : Nat) (last : Option TransportError),
      numCalls (sendLoop beh fuel attempt last).2 ≤ fuel := by
  intro fuel
  induction fuel with
  | zero => intro attempt last; simp [sendLoop, numCalls]
  | succ fuel ih =>
    intro attempt last
    cases hb : beh attempt with
    | success resp =>
      rw [sendLoop_success beh fuel attempt last resp hb]
      simp [numCalls]
    | failure e =>
      by_cases hc : classify e = .fatal
      · rw [sendLoop_fatal beh fuel attempt last e hb hc]
        simp [numCalls]
      · by_cases ha : attempt + 1 ≤ max_retries
        · rw [sendLoop_retry beh fuel attempt last e hb hc ha]
          have := ih (attempt + 1) (some e)
          simp only [numCalls, List.countP_cons] at this ⊢
          simp at this ⊢
          omega
        · have ha' : max_retries < attempt + 1 := by omega
          rw [sendLoop_exhaust beh fuel attempt last e hb ha']
          simp [numCalls]

/-- Every transport call the loop performs carries an attempt index below
`attempt + fuel`. -/
theorem sendLoop_publish_lt (beh : Nat → AttemptResult) :
    ∀ (fuel attempt : Nat) (last : Option TransportError) (m : Nat),
      Event.publish m ∈ (sendLoop beh fuel attempt last).2 →
      m < attempt + fuel := by
  intro fuel
  induction fuel with
  | zero => intro attempt last m hm; simp [sendLoop] at hm
  | succ fuel ih =>
    intro attempt last m hm
    cases hb : beh attempt with
    | success resp =>
      rw [sendLoop_success beh fuel attempt last resp hb] at hm
      simp at hm
      omega
    | failure e =>
      by_cases hc : classify e = .fatal
      · rw [sendLoop_fatal beh fuel attempt last e hb hc] at hm
        simp at hm
        omega
      · by_cases ha : attempt + 1 ≤ max_retries
        · rw [sendLoop_retry beh fuel attempt last e hb hc ha] at hm
          simp only [List.mem_cons] at hm
          rcases hm with h | h | h
          · cases h; omega
          · cases h
          · have := ih (attempt + 1) (some e) m h
            omega
        · have ha' : max_retries < attempt + 1 := by omega
          rw [sendLoop_exhaust beh fuel attempt last e hb ha'] at hm
          simp at hm
          omega

/-- C7: no dispatch call ever performs more than `max_retries + 1 = 4`
transport attempts, and every transport call in the trace carries an
attempt index whose successor (the value of `attempt` right after the
increment that follows a failure of that call) is at most
`max_retries + 1`. -/
theorem send_message_attempt_bounded
    (beh : Nat → AttemptResult) (message recipient : String) :
    numCalls (send_message beh message recipient).2 ≤ max_retries + 1 ∧
      ((send_message beh message recipient).2.all fun ev =>
        match ev with
        | .publish m => decide (m + 1 ≤ max_retries + 1)
        | _ => true) = true := by
  constructor
  · show numCalls (Event.acquire ::
      ((sendLoop beh (max_retries + 1) 0 none).2 ++ [Event.release])) ≤
        max_retries + 1
    have := sendLoop_calls_le beh (max_retries + 1) 0 none
    simp only [numCalls, List.countP_cons, List.countP_append,
      List.countP_nil] at this ⊢
    simp at this ⊢
    omega
  · rw [List.all_eq_true]
    intro ev hev
    have hev2 : ev ∈ Event.acquire ::
        ((sendLoop beh (max_retries + 1) 0 none).2 ++ [Event.release]) := hev
    simp only [List.mem_cons, List.mem_append, List.mem_singleton] at hev2
    rcases hev2 with h | h | h
    · subst h; rfl
    · cases ev with
      | publish m =>
        have := sendLoop_publish_lt beh (max_retries + 1) 0 none m h
        simp only [Nat.zero_add] at this
        simp [Nat.lt_iff_add_one_le.mp this]
      | acquire => rfl
      | release => rfl
      | sleep d => rfl
    · rcases h with h | h
      · subst h; rfl
      · cases h

/-- Setting a known element shifts `countP` by the contributions of the old
and new values. -/
theorem countP_set_some {α : Type} (p : α → Bool) :
    ∀ (ts : List α) (i : Nat) (x y : α), ts[i]? = some x →
      (ts.set i y).countP p + (if p x then 1 else 0) =
        ts.countP p + (if p y then 1 else 0) := by
  intro ts
  induction ts with
  | nil => intro i x y h; simp at h
  | cons a rest ih =>
    intro i x y h
    cases i with
    | zero =>
      simp only [List.getElem?_cons_zero, Option.some_inj] at h
      subst h
      simp only [List.set_cons_zero, List.countP_cons]
      omega
    | succ i =>
      simp only [List.getElem?_cons_succ] at h
      have := ih i x y h
      simp only [List.set_cons_succ, List.countP_cons]
      omega

/-- One gate step preserves the semaphore accounting: available slots plus
calls in flight equal the capacity. -/
theorem gateStep_preserves_inv {cap : Nat} {s t : GateState}
    (h : gateStep s t) (hi : s.1 + countRunning s.2 = cap) :
    t.1 + countRunning t.2 = cap := by
  cases h with
  | acquire a ts i hp =>
    have hcount := countP_set_some
      (fun t => match t with | .running => true | _ => false)
      ts i .pending .running hp
    simp only [countRunning] at hi ⊢
    simp at hcount
    omega
  | release a ts i hr =>
    have hcount := countP_set_some
      (fun t => match t with | .running => true | _ => false)
      ts i .running .done hr
    simp only [countRunning] at hi ⊢
    simp at hcount
    omega

/-- Every reachable state satisfies the semaphore accounting invariant. -/
theorem gateReachable_inv {cap n : Nat} {s : GateState}
    (h : gateReachable cap n s) : s.1 + countRunning s.2 = cap := by
  induction h with
  | refl =>
    have hz : countRunning (List.replicate n .pending) = 0 := by
      rw [countRunning, List.countP_eq_zero]
      intro t ht
      rw [List.eq_of_mem_replicate ht]
      simp
    simp [gateInit, hz]
  | tail _ hstep ih => exact gateStep_preserves_inv hstep ih

/-- C9: for concurrent dispatch calls sharing one backend instance
(capacity 2, five issued calls, every interleaving of the semaphore
protocol), at most `semaphore_capacity = 2` calls hold a slot — hence have
transport calls in flight — at any reachable moment; and once all five
calls are done the available-slot count is back to the full capacity. -/
theorem gate_bounds_in_flight (s : GateState)
    (hs : gateReachable semaphore_capacity 5 s) :
    countRunning s.2 ≤ semaphore_capacity ∧
      ((s.2.all fun t => match t with | .done => true | _ => false) = true →
        s.1 = semaphore_capacity) := by
  have inv := gateReachable_inv hs
  constructor
  · omega
  · intro hall
    have hz : countRunning s.2 = 0 := by
      rw [countRunning, List.countP_eq_zero]
      rw [List.all_eq_true] at hall
      intro t ht
      have := hall t ht
      cases t <;> simp_all
    omega

/-- Witness for C9 at the initial state (capacity 2, five pending calls),
reachable by the empty interleaving. -/
theorem gate_bounds_in_flight_witness :
    countRunning (gateInit semaphore_capacity 5).2 ≤ semaphore_capacity ∧
      (((gateInit semaphore_capacity 5).2.all fun t =>
        match t with | .done => true | _ => false) = true →
        (gateInit semaphore_capacity 5).1 = semaphore_capacity) :=
  gate_bounds_in_flight (gateInit semaphore_capacity 5)
    Relation.ReflTransGen.refl

end AsyncSmsBackend

end Aldera
